import Mathlib

/-!
Verification of `prettymaps_bot.py` (prettymaps-guessr-bot).

Python strings are modelled as lists of characters (`Str`), Python dicts
with string keys as association lists (first binding wins, as JSON-decoded
dicts have unique keys), and the random sources consumed by the script
(`random.uniform`, `random.choice`, `random.randint`, `random.sample`) as
explicit oracle data threaded through the definitions.  External services
(OpenTripMap, Nominatim, Mastodon) are modelled by the responses they
return and by the events the script performs against them.
-/

namespace PrettymapsBot

/-- A Python string: a sequence of code points. -/
abbrev Str := List Char

/-- Embed a Lean string literal as a `Str`. -/
def str (s : String) : Str := s.data

/-- Python `str.upper()` restricted to per-character case mapping
(the dataset's ADMIN names and CLI country names are plain script). -/
def upper (s : Str) : Str := s.map Char.toUpper

/-- Python `dict.get(key, default)`: the bound value when the key is
present, the default otherwise. -/
def dictGet (d : List (Str × Str)) (key : Str) (dflt : Str) : Str :=
  match d.lookup key with
  | some v => v
  | none => dflt

/-- `MAX_POLL_OPTION_LENGTH = 50` (module constant, line 41). -/
def MAX_POLL_OPTION_LENGTH : Nat := 50

/-- The `city` local of `create_poll_option` (line 131):
`address.get("municipality", address.get("town", "somewhere"))`. -/
def poll_city (address : List (Str × Str)) : Str :=
  dictGet address (str "municipality") (dictGet address (str "town") (str "somewhere"))

/-- The `region` local of `create_poll_option` (line 132):
`address.get("state", address.get("region", "somewhere"))`. -/
def poll_region (address : List (Str × Str)) : Str :=
  dictGet address (str "state") (dictGet address (str "region") (str "somewhere"))

/-- `create_poll_option` (lines 128-136): build `f"{name}, {city}, {region}"`
and truncate to `max_length - 2` characters plus `".."` when the built
string is longer than `max_length`. -/
def create_poll_option (name : Str) (address : List (Str × Str)) (max_length : Nat) : Str :=
  let opt := name ++ str ", " ++ poll_city address ++ str ", " ++ poll_region address
  if opt.length ≤ max_length then opt
  else opt.take (max_length - 2) ++ str ".."

/-- Modelled from the spec: the poll-option base string as §4.6/§4.5 word
it — `"{name}, {city}, {region}"` where city falls back
municipality → town → literal "somewhere" and region falls back
state → region → literal "somewhere".  Used only to compare against the
source definition `create_poll_option`. -/
def spec_poll_option_base (name : Str) (address : List (Str × Str)) : Str :=
  let city :=
    match address.lookup (str "municipality") with
    | some v => v
    | none =>
      match address.lookup (str "town") with
      | some v => v
      | none => str "somewhere"
  let region :=
    match address.lookup (str "state") with
    | some v => v
    | none =>
      match address.lookup (str "region") with
      | some v => v
      | none => str "somewhere"
  name ++ str ", " ++ city ++ str ", " ++ region

/-- `generate_random_point` (lines 74-79), rejection sampling: the polygon
is abstracted by its containment test `contains` (shapely
`polygon.contains`), and the successive draws of
`Point(random.uniform(minx, maxx), random.uniform(miny, maxy))` inside the
bounding box by the stream `draws`.  `none` means the given draws were
exhausted without an accepted point (the Python recursion would keep
drawing). -/
def generate_random_point {P : Type} (contains : P → Bool) : List P → Option P
  | [] => none
  | pt :: draws =>
    if contains pt then some pt
    else generate_random_point contains draws

/-- `random.sample(pool, len(pool))` (line 256): sampling without
replacement.  Each step removes the element at a randomly chosen position
of the remaining pool; the random source is the list `picks` of drawn
indices (reduced modulo the remaining pool size). -/
def random_sample {α : Type} : List Nat → List α → List α
  | [], _ => []
  | _ :: _, [] => []
  | i :: picks, a :: rest =>
    let pool := a :: rest
    let j := i % pool.length
    pool.getD j a :: random_sample picks (pool.eraseIdx j)

/-- One feature of `world_countries.geojson`: its `properties["ADMIN"]`
name.  The polygon geometry is never inspected by `pick_country` itself
and is abstracted away. -/
structure Feature where
  admin : Str
deriving DecidableEq, Repr

/-- `pick_country` (lines 64-71).  `choiceIdx` models `random.choice`
over the feature list (an arbitrary index, reduced modulo the length).
For a non-sentinel argument the dict comprehension keyed by
`ADMIN.upper()` keeps the last feature for a duplicated key, and the
lookup `countries[country.upper()]` raises `KeyError` (`none`) when the
key is absent.  `random.choice` on an empty sequence raises (`none`). -/
def pick_country (features : List Feature) (choiceIdx : Nat) (country : Str) : Option Feature :=
  if country = str "random" then
    match features with
    | [] => none
    | f :: rest => some ((f :: rest).getD (choiceIdx % (f :: rest).length) f)
  else
    features.reverse.find? (fun c => upper c.admin == upper country)

/-- An observable side effect of a run of the script (network requests,
file activity and error logging; informational logging to stdout is not
tracked). -/
inductive Event
  | logError          -- logger.error before an exit(1)
  | fileOpenDataset   -- open("world_countries.geojson") in pick_country
  | netPlaces         -- requests.get(OPENTRIPMAP_URL, ...) in get_otm_place
  | netGeocode        -- requests.get(NOMINATIM_URL/reverse, ...) in get_nominatim_address
  | fileWriteImage    -- prettymaps.plot(..., save_as=path)
  | netMediaPost      -- mastodon.media_post(map_path, ...)
  | netStatusPost     -- mastodon.status_post of the image toot
  | fileRemoveImage   -- os.remove(map_path)
  | netPollPost       -- mastodon.status_post of the poll reply
  | netAnswerPost     -- mastodon.status_post of the scheduled answer reply
deriving DecidableEq, Repr

/-- Whether an event is a network call (places API, geocoding API or
social-network API). -/
def Event.isNetwork : Event → Bool
  | netPlaces | netGeocode | netMediaPost | netStatusPost | netPollPost | netAnswerPost => true
  | _ => false

/-- Whether an event is file activity. -/
def Event.isFile : Event → Bool
  | fileOpenDataset | fileWriteImage | fileRemoveImage => true
  | _ => false

/-- How a run of the script terminates abnormally. -/
inductive RunError
  | exitCode (n : Int)  -- an explicit exit(n)
  | exn                 -- an uncaught exception (failed assert, KeyError, client error)
  | outOfFuel           -- the unbounded retry loop exceeded the supplied oracle data
deriving DecidableEq, Repr

/-- An OpenTripMap place feature as the script consumes it: its
`properties["name"]`.  The point geometry is only forwarded to Nominatim
and is abstracted away. -/
structure Place where
  name : Str
deriving DecidableEq, Repr

/-- `get_otm_place` (lines 82-114) for one pick.  `responses` is the
stream of successive OpenTripMap responses, one per attempt of the retry
loop: `none` models a non-200 status (the assert raises), `some feats`
the decoded feature list.  An empty feature list retries with the next
response; a non-empty one yields `random.choice(features)`, modelled by
the index `choice` reduced modulo the length.  Each attempt performs one
network request.  The point sampling preceding each request touches no
external service and is absorbed into the oracle. -/
def get_otm_place : List (Option (List Place)) → Nat → Except RunError Place × List Event
  | [], _ => (Except.error RunError.outOfFuel, [])
  | resp :: rest, choice =>
    match resp with
    | none => (Except.error RunError.exn, [Event.netPlaces])
    | some feats =>
      match feats with
      | [] =>
        ((get_otm_place rest choice).1, Event.netPlaces :: (get_otm_place rest choice).2)
      | f :: fs => (Except.ok ((f :: fs).getD (choice % (f :: fs).length) f), [Event.netPlaces])

/-- `get_nominatim_address` (lines 117-125) for one pick.  `resp` is the
decoded `features` array of the reverse-geocoding response; the assert
requires exactly one feature, whose `display_name` and `address` are
returned.  One network request is always performed. -/
def get_nominatim_address (resp : List (Str × List (Str × Str))) :
    Except RunError (Str × List (Str × Str)) × List Event :=
  match resp with
  | [f] => (Except.ok f, [Event.netGeocode])
  | _ => (Except.error RunError.exn, [Event.netGeocode])

/-- The list comprehension `[get_otm_place(polygon, radius_km) for _ in
range(nb_picks)]` (line 209): one `get_otm_place` call per pick, each
consuming its own oracle entry, events concatenated in order; the first
failure aborts the run. -/
def gatherPlaces : Nat → List (List (Option (List Place)) × Nat) →
    Except RunError (List Place) × List Event
  | 0, _ => (Except.ok [], [])
  | _ + 1, [] => (Except.error RunError.outOfFuel, [])
  | n + 1, o :: os =>
    let r := get_otm_place o.1 o.2
    match r.1 with
    | Except.error e => (Except.error e, r.2)
    | Except.ok p =>
      let g := gatherPlaces n os
      match g.1 with
      | Except.error e => (Except.error e, r.2 ++ g.2)
      | Except.ok ps => (Except.ok (p :: ps), r.2 ++ g.2)

/-- The generator `(get_nominatim_address(f) for f in otm_places)`
consumed by `zip(*...)` (line 211): one reverse-geocoding call per pick. -/
def gatherAddresses : Nat → List (List (Str × List (Str × Str))) →
    Except RunError (List (Str × List (Str × Str))) × List Event
  | 0, _ => (Except.ok [], [])
  | _ + 1, [] => (Except.error RunError.outOfFuel, [])
  | n + 1, r :: rs =>
    let a := get_nominatim_address r
    match a.1 with
    | Except.error e => (Except.error e, a.2)
    | Except.ok p =>
      let g := gatherAddresses n rs
      match g.1 with
      | Except.error e => (Except.error e, a.2 ++ g.2)
      | Except.ok ps => (Except.ok (p :: ps), a.2 ++ g.2)

/-- The CLI arguments after the `int(...)` conversions of lines 196-198
(`build_arguments` defaults: country "random", nb_picks 3, radius 50,
hours 24). -/
structure Args where
  country : Str
  nb_picks : Int
  radius : Int
  hours : Int
deriving DecidableEq, Repr

/-- The oracle data of one run: dataset contents, every random draw the
script makes, the external responses, and whether each Mastodon call
succeeds (a failing client call raises). -/
structure World where
  features : List Feature                          -- world_countries.geojson features
  countryChoice : Nat                              -- random.choice over features
  otm : List (List (Option (List Place)) × Nat)    -- per pick: OpenTripMap responses and random.choice
  nmtm : List (List (Str × List (Str × Str)))      -- per pick: Nominatim response features
  idxRand : Nat                                    -- random.randint(1, nb_picks), as randint - 1 mod nb_picks
  samplePicks : List Nat                           -- random.sample index draws
  mediaPostOk : Bool                               -- mastodon.media_post succeeds
  statusPostOk : Bool                              -- image mastodon.status_post succeeds
  pollPostOk : Bool                                -- poll mastodon.status_post succeeds
  answerPostOk : Bool                              -- answer mastodon.status_post succeeds
deriving DecidableEq, Repr

/-- The data a completed run has published. -/
structure RunOutput where
  otm_names : List Str                 -- otm_names (line 210)
  addresses : List (List (Str × Str))  -- addresses (line 211)
  pollOptions : List Str               -- poll_options (lines 212-215)
  shuffled : List Str                  -- random.sample(poll_options, len(poll_options)) (line 256)
  idx_pick : Nat                       -- idx_pick (line 219)
  answerText : Str                     -- status text of the answer toot (lines 266-269)
deriving DecidableEq, Repr

/-- Result of a run: its outcome, the ordered event trace, and whether
the rendered image file is still on disk at the end. -/
structure RunResult where
  outcome : Except RunError RunOutput
  events : List Event
  imageOnDisk : Bool
deriving Repr

/-- `ANSWER_TOOT_TPL.format(..., answer=...)` (lines 60, 266-269). -/
def answer_toot (answer : Str) : Str :=
  str "The correct answer is : " ++ answer

/-- The `__main__` block (lines 187-275), starting at the `int(...)`
conversions: validate `nb_picks`, pick the country (opening the dataset
file), gather `nb_picks` places and their reverse-geocoded addresses,
format the poll options, draw the correct pick, render and post the
image, delete the image file, post the poll with the shuffled options,
and post the scheduled answer reveal. -/
def runMain (args : Args) (w : World) : RunResult :=
  if args.nb_picks < 2 ∨ 4 < args.nb_picks then
    { outcome := Except.error (RunError.exitCode 1), events := [Event.logError],
      imageOnDisk := false }
  else
    let n := args.nb_picks.toNat
    match pick_country w.features w.countryChoice args.country with
    | none =>
      { outcome := Except.error RunError.exn, events := [Event.fileOpenDataset],
        imageOnDisk := false }
    | some _country =>
      match gatherPlaces n w.otm with
      | (Except.error e, evsP) =>
        { outcome := Except.error e, events := Event.fileOpenDataset :: evsP,
          imageOnDisk := false }
      | (Except.ok otm_places, evsP) =>
        match gatherAddresses n w.nmtm with
        | (Except.error e, evsN) =>
          { outcome := Except.error e, events := Event.fileOpenDataset :: (evsP ++ evsN),
            imageOnDisk := false }
        | (Except.ok pairs, evsN) =>
          let otm_names := otm_places.map Place.name
          let addresses := pairs.map Prod.snd
          let poll_options :=
            List.zipWith (fun nm ad => create_poll_option nm ad MAX_POLL_OPTION_LENGTH)
              otm_names addresses
          let idx_pick := w.idxRand % n
          let preEvents := Event.fileOpenDataset :: (evsP ++ evsN) ++ [Event.fileWriteImage]
          if w.mediaPostOk = false then
            { outcome := Except.error RunError.exn,
              events := preEvents ++ [Event.netMediaPost], imageOnDisk := true }
          else if w.statusPostOk = false then
            { outcome := Except.error RunError.exn,
              events := preEvents ++ [Event.netMediaPost, Event.netStatusPost],
              imageOnDisk := true }
          else
            let afterImg := preEvents ++
              [Event.netMediaPost, Event.netStatusPost, Event.fileRemoveImage]
            let shuffled := random_sample w.samplePicks poll_options
            if w.pollPostOk = false then
              { outcome := Except.error RunError.exn,
                events := afterImg ++ [Event.netPollPost], imageOnDisk := false }
            else if w.answerPostOk = false then
              { outcome := Except.error RunError.exn,
                events := afterImg ++ [Event.netPollPost, Event.netAnswerPost],
                imageOnDisk := false }
            else
              { outcome := Except.ok
                  { otm_names := otm_names, addresses := addresses,
                    pollOptions := poll_options, shuffled := shuffled,
                    idx_pick := idx_pick,
                    answerText := answer_toot (poll_options.getD idx_pick []) },
                events := afterImg ++ [Event.netPollPost, Event.netAnswerPost],
                imageOnDisk := false }

/-- The process environment: the three variables read at lines 29-42. -/
structure Env where
  mastodonInstance : Option Str
  mastodonAccessToken : Option Str
  opentripmapApiKey : Option Str
deriving DecidableEq, Repr

/-- The whole program: the module-level environment checks of lines 29-37
(each missing variable logs an error and exits with status 1), then the
`__main__` block. -/
def runProgram (env : Env) (args : Args) (w : World) : RunResult :=
  if env.mastodonInstance = none then
    { outcome := Except.error (RunError.exitCode 1), events := [Event.logError],
      imageOnDisk := false }
  else if env.mastodonAccessToken = none then
    { outcome := Except.error (RunError.exitCode 1), events := [Event.logError],
      imageOnDisk := false }
  else if env.opentripmapApiKey = none then
    { outcome := Except.error (RunError.exitCode 1), events := [Event.logError],
      imageOnDisk := false }
  else
    runMain args w

/-! Concrete inputs used by the witnesses below. -/

/-- A sample Nominatim address mapping. -/
def addrDemo : List (Str × Str) := [(str "town", str "Town"), (str "region", str "Region")]

/-- A place name long enough to force truncation of its poll option. -/
def longNameDemo : Str := str "A very long place name indeed quite long"

/-- A world with no oracle data: enough for runs that exit during validation. -/
def wTriv : World :=
  { features := [], countryChoice := 0, otm := [], nmtm := [], idxRand := 0,
    samplePicks := [], mediaPostOk := true, statusPostOk := true,
    pollPostOk := true, answerPostOk := true }

/-- CLI arguments with an out-of-range pick count. -/
def argsOutOfRange : Args := { country := str "random", nb_picks := 5, radius := 50, hours := 24 }

/-- CLI arguments for a two-pick run over the demo dataset. -/
def argsDemo : Args := { country := str "Testland", nb_picks := 2, radius := 50, hours := 24 }

/-- A world in which every external interaction of a two-pick run succeeds. -/
def wDemo : World :=
  { features := [{ admin := str "Testland" }], countryChoice := 0,
    otm := [([some [{ name := str "Place A" }]], 0), ([some [{ name := str "Place B" }]], 0)],
    nmtm := [[(str "A display", addrDemo)], [(str "B display", addrDemo)]],
    idxRand := 0, samplePicks := [1, 0],
    mediaPostOk := true, statusPostOk := true, pollPostOk := true, answerPostOk := true }

/-- The same world, but the poll post fails. -/
def wDemoPollFail : World := { wDemo with pollPostOk := false }

/-- An environment missing the instance URL. -/
def envMissing : Env :=
  { mastodonInstance := none, mastodonAccessToken := some (str "token"),
    opentripmapApiKey := some (str "key") }

/-! Helper lemmas. -/

/-- Unfolding lemma for `create_poll_option`. -/
theorem create_poll_option_eq (name : Str) (address : List (Str × Str)) (ml : Nat) :
    create_poll_option name address ml =
      if (name ++ str ", " ++ poll_city address ++ str ", " ++ poll_region address).length ≤ ml
      then name ++ str ", " ++ poll_city address ++ str ", " ++ poll_region address
      else (name ++ str ", " ++ poll_city address ++ str ", " ++ poll_region address).take (ml - 2)
        ++ str ".." := rfl

/-- Moving the element at a valid index to the front is a permutation. -/
theorem getD_cons_eraseIdx_perm {α : Type} (l : List α) (i : Nat) (d : α) (h : i < l.length) :
    List.Perm (l.getD i d :: l.eraseIdx i) l := by
  induction l generalizing i with
  | nil => simp at h
  | cons a t ih =>
    cases i with
    | zero => simp
    | succ i =>
      have hi : i < t.length := by simpa using h
      have h1 : List.Perm (t.getD i d :: a :: t.eraseIdx i) (a :: t.getD i d :: t.eraseIdx i) :=
        List.Perm.swap a (t.getD i d) (t.eraseIdx i)
      have h2 : List.Perm (a :: t.getD i d :: t.eraseIdx i) (a :: t) :=
        List.Perm.cons a (ih i hi)
      simpa using h1.trans h2

/-- `random_sample` with as many index draws as pool elements permutes the pool. -/
theorem random_sample_perm_of_length {α : Type} (picks : List Nat) (pool : List α)
    (h : picks.length = pool.length) : List.Perm (random_sample picks pool) pool := by
  induction picks generalizing pool with
  | nil =>
    have : pool = [] := by
      cases pool with
      | nil => rfl
      | cons a t => simp at h
    subst this
    simp [random_sample]
  | cons i picks ih =>
    cases pool with
    | nil => simp at h
    | cons a rest =>
      have hlen : i % (a :: rest).length < (a :: rest).length :=
        Nat.mod_lt _ (by simp)
      have herase : picks.length = ((a :: rest).eraseIdx (i % (a :: rest).length)).length := by
        rw [List.length_eraseIdx]
        simp only [hlen, if_pos]
        simp at h
        simp [h]
      have hperm := ih _ herase
      have h0 : random_sample (i :: picks) (a :: rest) =
          (a :: rest).getD (i % (a :: rest).length) a ::
            random_sample picks ((a :: rest).eraseIdx (i % (a :: rest).length)) := by
        simp only [random_sample]
      rw [h0]
      exact (List.Perm.cons _ hperm).trans (getD_cons_eraseIdx_perm _ _ _ hlen)

/-! Theorems for the claims, with their witnesses. -/

/-- C1: with `max_length = 50`, `create_poll_option` returns the built
string unchanged when its length is at most 50; when it is longer, the
result has exactly 50 characters, ends with the two-character marker
"..", and its first 48 characters are the first 48 of the built string. -/
theorem create_poll_option_truncation (name : Str) (address : List (Str × Str)) :
    ((name ++ str ", " ++ poll_city address ++ str ", " ++ poll_region address).length ≤ 50 →
      create_poll_option name address 50 =
        name ++ str ", " ++ poll_city address ++ str ", " ++ poll_region address) ∧
    (50 < (name ++ str ", " ++ poll_city address ++ str ", " ++ poll_region address).length →
      (create_poll_option name address 50).length = 50 ∧
      str ".." <:+ create_poll_option name address 50 ∧
      (create_poll_option name address 50).take 48 =
        (name ++ str ", " ++ poll_city address ++ str ", " ++ poll_region address).take 48) := by
  rw [create_poll_option_eq]
  set opt := name ++ str ", " ++ poll_city address ++ str ", " ++ poll_region address with hopt
  constructor
  · intro h
    rw [if_pos h]
  · intro h
    rw [if_neg (by omega)]
    have h48 : (opt.take (50 - 2)).length = 48 := by
      rw [List.length_take]
      omega
    refine ⟨?_, ?_, ?_⟩
    · rw [List.length_append, h48]
      rfl
    · exact ⟨opt.take (50 - 2), rfl⟩
    · rw [List.take_left' h48]

/-- C1 witness: a name long enough to overflow the 50-character budget. -/
theorem create_poll_option_truncation_check :
    (create_poll_option longNameDemo addrDemo 50).length = 50 ∧
    str ".." <:+ create_poll_option longNameDemo addrDemo 50 ∧
    (create_poll_option longNameDemo addrDemo 50).take 48 =
      (longNameDemo ++ str ", " ++ poll_city addrDemo ++ str ", " ++ poll_region addrDemo).take 48 :=
  (create_poll_option_truncation longNameDemo addrDemo).2 (by decide)

/-- C2: whenever the rejection sampler returns a point, that point passes
the polygon's containment test, and it is one of the bounding-box draws;
a draw failing the test is never returned. -/
theorem generate_random_point_contains (P : Type) (contains : P → Bool) (draws : List P) (pt : P)
    (h : generate_random_point contains draws = some pt) :
    contains pt = true ∧ pt ∈ draws := by
  induction draws with
  | nil => simp [generate_random_point] at h
  | cons q qs ih =>
    rw [generate_random_point] at h
    by_cases hq : contains q
    · rw [if_pos hq] at h
      cases h
      exact ⟨hq, List.mem_cons_self _ _⟩
    · rw [if_neg hq] at h
      obtain ⟨h1, h2⟩ := ih h
      exact ⟨h1, List.mem_cons_of_mem q h2⟩

/-- C2 witness: among the draws `[0, 1]` with test "equals 1", the
sampler rejects 0 and returns 1, which passes the test. -/
theorem generate_random_point_contains_check :
    (fun n : Nat => n == 1) 1 = true ∧ 1 ∈ [0, 1] :=
  generate_random_point_contains Nat (fun n => n == 1) [0, 1] 1 (by decide)

/-- C3: `random.sample(poll_options, len(poll_options))` yields a
permutation of the generated options (same multiset), so every option —
in particular the correct answer's — occurs in the shuffled list exactly
as often as in the generated list. -/
theorem random_sample_permutes (picks : List Nat) (options : List Str) (s : Str)
    (h : picks.length = options.length) :
    List.Perm (random_sample picks options) options ∧
    (random_sample picks options).count s = options.count s := by
  have hp := random_sample_perm_of_length picks options h
  have hc := hp.countP_eq (· == s)
  exact ⟨hp, by simpa [List.count] using hc⟩

/-- C3 witness: a concrete three-element shuffle. -/
theorem random_sample_permutes_check :
    List.Perm (random_sample [1, 0, 0] [str "a", str "b", str "c"]) [str "a", str "b", str "c"] ∧
    (random_sample [1, 0, 0] [str "a", str "b", str "c"]).count (str "a") =
      [str "a", str "b", str "c"].count (str "a") :=
  random_sample_permutes [1, 0, 0] [str "a", str "b", str "c"] (str "a") (by decide)

/-- C7: the poll option is built from exactly the string
"{name}, {city}, {region}" — city falling back municipality → town →
"somewhere" and region falling back state → region → "somewhere", as the
spec words it — with no other normalization: the source builder agrees
with the spec-worded one, and short options are returned verbatim. -/
theorem create_poll_option_base_fields (name : Str) (address : List (Str × Str)) :
    spec_poll_option_base name address =
      name ++ str ", " ++ poll_city address ++ str ", " ++ poll_region address ∧
    ((spec_poll_option_base name address).length ≤ 50 →
      create_poll_option name address 50 = spec_poll_option_base name address) ∧
    (50 < (spec_poll_option_base name address).length →
      create_poll_option name address 50 =
        (spec_poll_option_base name address).take 48 ++ str "..") := by
  have hb : spec_poll_option_base name address =
      name ++ str ", " ++ poll_city address ++ str ", " ++ poll_region address := rfl
  refine ⟨hb, ?_, ?_⟩
  · intro h
    rw [create_poll_option_eq, ← hb, if_pos h]
  · intro h
    rw [create_poll_option_eq, ← hb, if_neg (by omega)]

/-- C7 witness: a short option is exactly the spec-worded base string. -/
theorem create_poll_option_base_fields_check :
    spec_poll_option_base (str "Eiffel") addrDemo =
      str "Eiffel" ++ str ", " ++ poll_city addrDemo ++ str ", " ++ poll_region addrDemo ∧
    create_poll_option (str "Eiffel") addrDemo 50 = spec_poll_option_base (str "Eiffel") addrDemo :=
  ⟨(create_poll_option_base_fields (str "Eiffel") addrDemo).1,
   (create_poll_option_base_fields (str "Eiffel") addrDemo).2.1 (by decide)⟩

/-- C6: for non-sentinel names the lookup is case-insensitive and
deterministic — two calls whose names differ only in case return the
same feature, whatever the random draws; an unmatched name propagates
the lookup failure; and the sentinel draws from the full feature set
(every feature is returned for some draw). -/
theorem pick_country_lookup_props (features : List Feature) (i j : Nat) (c₁ c₂ : Str)
    (h₁ : c₁ ≠ str "random") (h₂ : c₂ ≠ str "random") (hc : upper c₁ = upper c₂) :
    pick_country features i c₁ = pick_country features j c₂ ∧
    ((∀ f ∈ features, upper f.admin ≠ upper c₁) → pick_country features i c₁ = none) ∧
    (∀ f ∈ features, ∃ k, pick_country features k (str "random") = some f) := by
  refine ⟨?_, ?_, ?_⟩
  · unfold pick_country
    rw [if_neg h₁, if_neg h₂]
    simp only [hc]
  · intro hno
    unfold pick_country
    rw [if_neg h₁]
    apply List.find?_eq_none.mpr
    intro x hx
    have hx2 := hno x (List.mem_reverse.mp hx)
    simpa using hx2
  · intro f hf
    obtain ⟨k, hk, hfk⟩ := List.mem_iff_getElem.mp hf
    refine ⟨k, ?_⟩
    unfold pick_country
    rw [if_pos rfl]
    cases features with
    | nil => simp at hk
    | cons f0 rest =>
      have hmod : k % (f0 :: rest).length = k := Nat.mod_eq_of_lt hk
      show some ((f0 :: rest).getD (k % (f0 :: rest).length) f0) = some f
      rw [hmod]
      rw [List.getD_eq_getElem?_getD, List.getElem?_eq_getElem hk]
      simpa using hfk

/-- C6 witness: the lookups for "ATLANTIS" and "atlantis" agree (and
fail) over a one-country dataset, whose only feature is reachable by
the sentinel. -/
theorem pick_country_lookup_props_check :
    pick_country [{ admin := str "France" }] 0 (str "ATLANTIS") =
      pick_country [{ admin := str "France" }] 1 (str "atlantis") ∧
    pick_country [{ admin := str "France" }] 0 (str "ATLANTIS") = none ∧
    ∃ k, pick_country [{ admin := str "France" }] k (str "random") =
      some { admin := str "France" } := by
  have T := pick_country_lookup_props [{ admin := str "France" }] 0 1
    (str "ATLANTIS") (str "atlantis") (by decide) (by decide) (by decide)
  exact ⟨T.1, T.2.1 (by decide), T.2.2 { admin := str "France" } (by decide)⟩

/-- C9: the sentinel test is case-sensitive — "Random" and "RANDOM" go
through the name lookup rather than random selection: they fail fatally
when no feature is named "random" case-insensitively, and find such a
feature when one exists. -/
theorem pick_country_sentinel_case (features : List Feature) (i : Nat) :
    ((∀ f ∈ features, upper f.admin ≠ str "RANDOM") →
      pick_country features i (str "Random") = none ∧
      pick_country features i (str "RANDOM") = none) ∧
    ((∃ f ∈ features, upper f.admin = str "RANDOM") →
      ∃ f ∈ features, pick_country features i (str "Random") = some f) := by
  have hup : upper (str "Random") = str "RANDOM" := by decide
  have hup2 : upper (str "RANDOM") = str "RANDOM" := by decide
  have hne : (str "Random") ≠ str "random" := by decide
  have hne2 : (str "RANDOM") ≠ str "random" := by decide
  constructor
  · intro hno
    constructor
    · unfold pick_country
      rw [if_neg hne]
      apply List.find?_eq_none.mpr
      intro x hx
      have hx2 := hno x (List.mem_reverse.mp hx)
      simp only [hup]
      simpa using hx2
    · unfold pick_country
      rw [if_neg hne2]
      apply List.find?_eq_none.mpr
      intro x hx
      have hx2 := hno x (List.mem_reverse.mp hx)
      simp only [hup2]
      simpa using hx2
  · rintro ⟨f, hf, hadm⟩
    unfold pick_country
    rw [if_neg hne]
    have hsome : (features.reverse.find? (fun c => upper c.admin == upper (str "Random"))).isSome := by
      apply List.find?_isSome.mpr
      refine ⟨f, List.mem_reverse.mpr hf, ?_⟩
      simp only [hup]
      simpa using hadm
    obtain ⟨g, hg⟩ := Option.isSome_iff_exists.mp hsome
    exact ⟨g, List.mem_reverse.mp (List.mem_of_find?_eq_some hg), hg⟩

/-- C9 witness: over a dataset without a country named "random", the
argument "Random" is not treated as the sentinel and the lookup fails. -/
theorem pick_country_sentinel_case_check :
    pick_country [{ admin := str "France" }] 0 (str "Random") = none ∧
    pick_country [{ admin := str "France" }] 0 (str "RANDOM") = none :=
  (pick_country_sentinel_case [{ admin := str "France" }] 0).1 (by decide)

/-- Every event of `get_otm_place` is a places-API request. -/
theorem get_otm_place_events (resp : List (Option (List Place))) (choice : Nat) :
    ∀ e ∈ (get_otm_place resp choice).2, e = Event.netPlaces := by
  induction resp with
  | nil => simp [get_otm_place]
  | cons r rest ih =>
    cases r with
    | none => simp [get_otm_place]
    | some feats =>
      cases feats with
      | nil =>
        intro e he
        simp only [get_otm_place, List.mem_cons] at he
        rcases he with he | he
        · exact he
        · exact ih e he
      | cons f fs => simp [get_otm_place]

/-- Every event of `gatherPlaces` is a places-API request. -/
theorem gatherPlaces_events (n : Nat) (o : List (List (Option (List Place)) × Nat)) :
    ∀ e ∈ (gatherPlaces n o).2, e = Event.netPlaces := by
  induction n generalizing o with
  | zero => simp [gatherPlaces]
  | succ n ih =>
    cases o with
    | nil => simp [gatherPlaces]
    | cons p ps =>
      intro e he
      simp only [gatherPlaces] at he
      rcases h1 : (get_otm_place p.1 p.2).1 with e1 | pl
      · rw [h1] at he
        simp only [] at he
        exact get_otm_place_events p.1 p.2 e he
      · rw [h1] at he
        rcases h2 : (gatherPlaces n ps).1 with e2 | ps2
        · rw [h2] at he
          simp only [List.mem_append] at he
          rcases he with he | he
          · exact get_otm_place_events p.1 p.2 e he
          · exact ih ps e he
        · rw [h2] at he
          simp only [List.mem_append] at he
          rcases he with he | he
          · exact get_otm_place_events p.1 p.2 e he
          · exact ih ps e he

/-- Every event of `gatherAddresses` is a geocoding request. -/
theorem gatherAddresses_events (n : Nat) (o : List (List (Str × List (Str × Str)))) :
    ∀ e ∈ (gatherAddresses n o).2, e = Event.netGeocode := by
  have hone : ∀ r, ∀ e ∈ (get_nominatim_address r).2, e = Event.netGeocode := by
    intro r e he
    cases r with
    | nil => simpa [get_nominatim_address] using he
    | cons a t =>
      cases t with
      | nil => simpa [get_nominatim_address] using he
      | cons b u => simpa [get_nominatim_address] using he
  induction n generalizing o with
  | zero => simp [gatherAddresses]
  | succ n ih =>
    cases o with
    | nil => simp [gatherAddresses]
    | cons p ps =>
      intro e he
      simp only [gatherAddresses] at he
      rcases h1 : (get_nominatim_address p).1 with e1 | pl
      · rw [h1] at he
        simp only [] at he
        exact hone p e he
      · rw [h1] at he
        rcases h2 : (gatherAddresses n ps).1 with e2 | ps2
        · rw [h2] at he
          simp only [List.mem_append] at he
          rcases he with he | he
          · exact hone p e he
          · exact ih ps e he
        · rw [h2] at he
          simp only [List.mem_append] at he
          rcases he with he | he
          · exact hone p e he
          · exact ih ps e he

/-- A successful `gatherPlaces` returns one place per pick. -/
theorem gatherPlaces_length (n : Nat) (o : List (List (Option (List Place)) × Nat))
    (ps : List Place) (h : (gatherPlaces n o).1 = Except.ok ps) : ps.length = n := by
  induction n generalizing o ps with
  | zero =>
    simp only [gatherPlaces] at h
    cases h
    rfl
  | succ n ih =>
    cases o with
    | nil => simp [gatherPlaces] at h
    | cons p os =>
      simp only [gatherPlaces] at h
      rcases h1 : (get_otm_place p.1 p.2).1 with e1 | pl
      · rw [h1] at h
        simp at h
      · rw [h1] at h
        rcases h2 : (gatherPlaces n os).1 with e2 | ps2
        · rw [h2] at h
          simp at h
        · rw [h2] at h
          simp only [] at h
          cases h
          simpa using ih os ps2 h2

/-- A successful `gatherAddresses` returns one pair per pick. -/
theorem gatherAddresses_length (n : Nat) (o : List (List (Str × List (Str × Str))))
    (ps : List (Str × List (Str × Str))) (h : (gatherAddresses n o).1 = Except.ok ps) :
    ps.length = n := by
  induction n generalizing o ps with
  | zero =>
    simp only [gatherAddresses] at h
    cases h
    rfl
  | succ n ih =>
    cases o with
    | nil => simp [gatherAddresses] at h
    | cons p os =>
      simp only [gatherAddresses] at h
      rcases h1 : (get_nominatim_address p).1 with e1 | pl
      · rw [h1] at h
        simp at h
      · rw [h1] at h
        rcases h2 : (gatherAddresses n os).1 with e2 | ps2
        · rw [h2] at h
          simp at h
        · rw [h2] at h
          simp only [] at h
          cases h
          simpa using ih os ps2 h2

/-- `List.getD` at a valid index is the indexed element. -/
theorem getD_eq_getElem_of_lt {α : Type} (l : List α) (i : Nat) (d : α) (h : i < l.length) :
    l.getD i d = l[i] := by
  simp [List.getD_eq_getElem?_getD, List.getElem?_eq_getElem h]

/-- C4: with `nb_picks` outside [2, 4], the run logs an error and exits
with status 1, and performs no network call (no event at all beyond the
error log — in particular no places-API, geocoding or social-network
request). -/
theorem nb_picks_validation (args : Args) (w : World)
    (h : args.nb_picks < 2 ∨ 4 < args.nb_picks) :
    (runMain args w).outcome = Except.error (RunError.exitCode 1) ∧
    (runMain args w).events = [Event.logError] ∧
    ∀ e ∈ (runMain args w).events, e.isNetwork = false := by
  have hr : runMain args w =
      { outcome := Except.error (RunError.exitCode 1),
        events := [Event.logError], imageOnDisk := false } := by
    unfold runMain
    rw [if_pos h]
  rw [hr]
  refine ⟨rfl, rfl, ?_⟩
  intro e he
  simp only [List.mem_singleton] at he
  subst he
  rfl

/-- C4 witness: `nb_picks = 5` exits with status 1 and no network event. -/
theorem nb_picks_validation_check :
    (runMain argsOutOfRange wTriv).outcome = Except.error (RunError.exitCode 1) ∧
    (runMain argsOutOfRange wTriv).events = [Event.logError] ∧
    ∀ e ∈ (runMain argsOutOfRange wTriv).events, e.isNetwork = false :=
  nb_picks_validation argsOutOfRange wTriv (by decide)

/-- C5: if any of the three required environment variables is absent,
the program logs an error and exits with status 1 before any HTTP call
or file activity (its whole trace is the error log). -/
theorem env_missing_exits (env : Env) (args : Args) (w : World)
    (h : env.mastodonInstance = none ∨ env.mastodonAccessToken = none ∨
      env.opentripmapApiKey = none) :
    (runProgram env args w).outcome = Except.error (RunError.exitCode 1) ∧
    (runProgram env args w).events = [Event.logError] ∧
    ∀ e ∈ (runProgram env args w).events, e.isNetwork = false ∧ e.isFile = false := by
  have hr : runProgram env args w =
      { outcome := Except.error (RunError.exitCode 1),
        events := [Event.logError], imageOnDisk := false } := by
    unfold runProgram
    rcases h with h | h | h
    · rw [if_pos h]
    · by_cases h1 : env.mastodonInstance = none
      · rw [if_pos h1]
      · rw [if_neg h1, if_pos h]
    · by_cases h1 : env.mastodonInstance = none
      · rw [if_pos h1]
      · by_cases h2 : env.mastodonAccessToken = none
        · rw [if_neg h1, if_pos h2]
        · rw [if_neg h1, if_neg h2, if_pos h]
  rw [hr]
  refine ⟨rfl, rfl, ?_⟩
  intro e he
  simp only [List.mem_singleton] at he
  subst he
  exact ⟨rfl, rfl⟩

/-- C5 witness: a missing instance URL exits before any HTTP or file event. -/
theorem env_missing_exits_check :
    (runProgram envMissing argsDemo wDemo).outcome = Except.error (RunError.exitCode 1) ∧
    (runProgram envMissing argsDemo wDemo).events = [Event.logError] ∧
    ∀ e ∈ (runProgram envMissing argsDemo wDemo).events,
      e.isNetwork = false ∧ e.isFile = false :=
  env_missing_exits envMissing argsDemo wDemo (Or.inl rfl)

/-- C8: in every run that reaches publishing and whose image post
succeeds, the image file is removed immediately after the image status
post and before the poll and answer posts are attempted, and the file is
off disk at the end whatever happens to the poll and answer steps. -/
theorem image_removed_before_poll (args : Args) (w : World) (cf : Feature)
    (places : List Place) (pairs : List (Str × List (Str × Str)))
    (hnb : ¬(args.nb_picks < 2 ∨ 4 < args.nb_picks))
    (hc : pick_country w.features w.countryChoice args.country = some cf)
    (hg : (gatherPlaces args.nb_picks.toNat w.otm).1 = Except.ok places)
    (hn : (gatherAddresses args.nb_picks.toNat w.nmtm).1 = Except.ok pairs)
    (hm : w.mediaPostOk = true) (hs : w.statusPostOk = true) :
    (∃ pre suf, (runMain args w).events =
        pre ++ Event.netStatusPost :: Event.fileRemoveImage :: suf ∧
      Event.netPollPost ∉ pre ∧ Event.netAnswerPost ∉ pre ∧
      Event.fileRemoveImage ∉ pre) ∧
    (runMain args w).imageOnDisk = false := by
  rcases hP : gatherPlaces args.nb_picks.toNat w.otm with ⟨g1, evsP⟩
  rcases hN : gatherAddresses args.nb_picks.toNat w.nmtm with ⟨a1, evsN⟩
  rw [hP] at hg
  rw [hN] at hn
  simp only [] at hg hn
  subst hg
  subst hn
  have hevP : ∀ e ∈ evsP, e = Event.netPlaces := by
    have h0 := gatherPlaces_events args.nb_picks.toNat w.otm
    rw [hP] at h0
    exact h0
  have hevN : ∀ e ∈ evsN, e = Event.netGeocode := by
    have h0 := gatherAddresses_events args.nb_picks.toNat w.nmtm
    rw [hN] at h0
    exact h0
  have hnotin : ∀ x : Event, x ≠ Event.fileOpenDataset → x ≠ Event.netPlaces →
      x ≠ Event.netGeocode → x ≠ Event.fileWriteImage → x ≠ Event.netMediaPost →
      x ∉ (Event.fileOpenDataset ::
        ((evsP ++ evsN) ++ [Event.fileWriteImage, Event.netMediaPost]) : List Event) := by
    intro x h1 h2 h3 h4 h5 hmem
    simp only [List.mem_cons, List.mem_append, List.not_mem_nil, or_false] at hmem
    rcases hmem with h | (h | h) | (h | h)
    · exact h1 h
    · exact h2 (hevP x h)
    · exact h3 (hevN x h)
    · exact h4 h
    · exact h5 h
  unfold runMain
  rw [if_neg hnb]
  simp only [hc, hP, hN, hm, hs, reduceIte]
  by_cases hp : w.pollPostOk = false
  · simp only [hp, reduceIte]
    refine ⟨⟨Event.fileOpenDataset ::
      ((evsP ++ evsN) ++ [Event.fileWriteImage, Event.netMediaPost]),
      [Event.netPollPost], ?_, ?_, ?_, ?_⟩, rfl⟩
    · simp [List.append_assoc]
    · exact hnotin _ (by decide) (by decide) (by decide) (by decide) (by decide)
    · exact hnotin _ (by decide) (by decide) (by decide) (by decide) (by decide)
    · exact hnotin _ (by decide) (by decide) (by decide) (by decide) (by decide)
  · simp only [if_neg hp]
    by_cases ha : w.answerPostOk = false
    · simp only [ha, reduceIte]
      refine ⟨⟨Event.fileOpenDataset ::
        ((evsP ++ evsN) ++ [Event.fileWriteImage, Event.netMediaPost]),
        [Event.netPollPost, Event.netAnswerPost], ?_, ?_, ?_, ?_⟩, rfl⟩
      · simp [List.append_assoc]
      · exact hnotin _ (by decide) (by decide) (by decide) (by decide) (by decide)
      · exact hnotin _ (by decide) (by decide) (by decide) (by decide) (by decide)
      · exact hnotin _ (by decide) (by decide) (by decide) (by decide) (by decide)
    · simp only [if_neg ha]
      refine ⟨⟨Event.fileOpenDataset ::
        ((evsP ++ evsN) ++ [Event.fileWriteImage, Event.netMediaPost]),
        [Event.netPollPost, Event.netAnswerPost], ?_, ?_, ?_, ?_⟩, rfl⟩
      · simp [List.append_assoc]
      · exact hnotin _ (by decide) (by decide) (by decide) (by decide) (by decide)
      · exact hnotin _ (by decide) (by decide) (by decide) (by decide) (by decide)
      · exact hnotin _ (by decide) (by decide) (by decide) (by decide) (by decide)

/-- C8 witness: a two-pick run whose poll post fails still has the image
file removed right after the image post and off disk at the end. -/
theorem image_removed_before_poll_check :
    (∃ pre suf, (runMain argsDemo wDemoPollFail).events =
        pre ++ Event.netStatusPost :: Event.fileRemoveImage :: suf ∧
      Event.netPollPost ∉ pre ∧ Event.netAnswerPost ∉ pre ∧
      Event.fileRemoveImage ∉ pre) ∧
    (runMain argsDemo wDemoPollFail).imageOnDisk = false :=
  image_removed_before_poll argsDemo wDemoPollFail { admin := str "Testland" }
    [{ name := str "Place A" }, { name := str "Place B" }]
    [(str "A display", addrDemo), (str "B display", addrDemo)]
    (by decide) rfl rfl rfl rfl rfl

/-- C10: in every completing run the answer post's text embeds exactly
the poll option at the correct pick's index — the possibly truncated
option built by `create_poll_option` from that pick's place name and
address — which occurs in both the generated and the shuffled option
lists; it is the option string, not the place name or display name, that
is embedded. -/
theorem answer_embeds_correct_option (args : Args) (w : World) (cf : Feature)
    (places : List Place) (pairs : List (Str × List (Str × Str)))
    (hnb : ¬(args.nb_picks < 2 ∨ 4 < args.nb_picks))
    (hc : pick_country w.features w.countryChoice args.country = some cf)
    (hg : (gatherPlaces args.nb_picks.toNat w.otm).1 = Except.ok places)
    (hn : (gatherAddresses args.nb_picks.toNat w.nmtm).1 = Except.ok pairs)
    (hm : w.mediaPostOk = true) (hs : w.statusPostOk = true)
    (hp : w.pollPostOk = true) (ha : w.answerPostOk = true)
    (hsp : w.samplePicks.length = args.nb_picks.toNat) :
    ∃ out, (runMain args w).outcome = Except.ok out ∧
      out.idx_pick < out.pollOptions.length ∧
      out.answerText = answer_toot (out.pollOptions.getD out.idx_pick []) ∧
      out.pollOptions.getD out.idx_pick [] =
        create_poll_option (out.otm_names.getD out.idx_pick [])
          (out.addresses.getD out.idx_pick []) MAX_POLL_OPTION_LENGTH ∧
      out.pollOptions.getD out.idx_pick [] ∈ out.pollOptions ∧
      out.pollOptions.getD out.idx_pick [] ∈ out.shuffled := by
  rcases hP : gatherPlaces args.nb_picks.toNat w.otm with ⟨g1, evsP⟩
  rcases hN : gatherAddresses args.nb_picks.toNat w.nmtm with ⟨a1, evsN⟩
  rw [hP] at hg
  rw [hN] at hn
  simp only [] at hg hn
  subst hg
  subst hn
  have hlp : places.length = args.nb_picks.toNat :=
    gatherPlaces_length args.nb_picks.toNat w.otm places (by rw [hP])
  have hla : pairs.length = args.nb_picks.toNat :=
    gatherAddresses_length args.nb_picks.toNat w.nmtm pairs (by rw [hN])
  unfold runMain
  rw [if_neg hnb]
  simp only [hc, hP, hN, hm, hs, hp, ha, reduceIte]
  set opts := List.zipWith (fun nm ad => create_poll_option nm ad MAX_POLL_OPTION_LENGTH)
    (List.map Place.name places) (List.map Prod.snd pairs) with hopts
  have hlopts : opts.length = args.nb_picks.toNat := by
    rw [hopts, List.length_zipWith, List.length_map, List.length_map, hlp, hla, min_self]
  have hidx : w.idxRand % args.nb_picks.toNat < args.nb_picks.toNat :=
    Nat.mod_lt _ (by omega)
  have hidxo : w.idxRand % args.nb_picks.toNat < opts.length := by
    rw [hlopts]
    exact hidx
  have hidx1 : w.idxRand % args.nb_picks.toNat < (List.map Place.name places).length := by
    rw [List.length_map, hlp]
    exact hidx
  have hidx2 : w.idxRand % args.nb_picks.toNat < (List.map Prod.snd pairs).length := by
    rw [List.length_map, hla]
    exact hidx
  refine ⟨_, rfl, ?_, ?_, ?_, ?_, ?_⟩
  · exact hidxo
  · rfl
  · rw [getD_eq_getElem_of_lt _ _ _ hidxo, getD_eq_getElem_of_lt _ _ _ hidx1,
      getD_eq_getElem_of_lt _ _ _ hidx2]
    exact List.getElem_zipWith
  · rw [getD_eq_getElem_of_lt _ _ _ hidxo]
    exact List.getElem_mem hidxo
  · have hperm := random_sample_perm_of_length w.samplePicks opts (hsp.trans hlopts.symm)
    rw [getD_eq_getElem_of_lt _ _ _ hidxo]
    exact (hperm.mem_iff).mpr (List.getElem_mem hidxo)

/-- C10 witness: the completing two-pick demo run embeds the correct
pick's poll option in the answer text. -/
theorem answer_embeds_correct_option_check :
    ∃ out, (runMain argsDemo wDemo).outcome = Except.ok out ∧
      out.idx_pick < out.pollOptions.length ∧
      out.answerText = answer_toot (out.pollOptions.getD out.idx_pick []) ∧
      out.pollOptions.getD out.idx_pick [] =
        create_poll_option (out.otm_names.getD out.idx_pick [])
          (out.addresses.getD out.idx_pick []) MAX_POLL_OPTION_LENGTH ∧
      out.pollOptions.getD out.idx_pick [] ∈ out.pollOptions ∧
      out.pollOptions.getD out.idx_pick [] ∈ out.shuffled :=
  answer_embeds_correct_option argsDemo wDemo { admin := str "Testland" }
    [{ name := str "Place A" }, { name := str "Place B" }]
    [(str "A display", addrDemo), (str "B display", addrDemo)]
    (by decide) rfl rfl rfl rfl rfl rfl rfl rfl

end PrettymapsBot
